import Mathlib

/-!
Verification development for the Universal-TV-Remote repository.

The development shallowly embeds the parts of the source that the checked
properties are about:

* the hand-written WebSocket frame codec of the Android native client
  (`sendWebSocketFrame` / `readWebSocketFrame` in
  `android/.../SamsungTvClient.kt`), with bytes modelled as `Nat` values
  below 256 and the socket stream as a `List Nat`;
* the token-store discipline of the raw connect path
  (`connectRawWebSocket`, `TokenRepository`);
* the connect watchdog / completion-callback lifecycle
  (`SamsungTvClient.connect` and the terminal branches of
  `connectRawWebSocket`), as a transition system;
* the TypeScript handler registry (`src/handlers/registry.ts`), the Samsung
  Tizen handler's `identify` (`SamsungTizenHandler.ts`) with a small JSON
  value model, and the Samsung key map (`src/handlers/samsung/keys.ts`);
* the two subnet-scan probe generators (`scanSubnetForTvPorts` in the
  native client and `generateSubnetIps` in the registry).

Randomness (the frame mask key, the WebSocket key) and network effects are
passed in as explicit parameters; fallible operations return `Option` or
`Except`.
-/

/-! ## Byte-stream primitives (android/.../SamsungTvClient.kt)

Bytes are `Nat` values below 256 (the unsigned reading of Kotlin's signed
`Byte`); an `InputStream` is a `List Nat`.  `InputStream.read()` returns the
next byte, or `-1` at end of stream; the decoder checks `-1` only for the
first two header bytes, and on the other reads an exhausted stream funnels
into the catch-all `return null` (a negative array size or a failed read),
so end of stream is uniformly modelled as `none`. -/

/-- One `InputStream.read()`: next byte and remaining stream, `none` at end
of stream. -/
def read1 : List Nat → Option (Nat × List Nat)
  | [] => none
  | b :: rest => some (b, rest)

/-- The 16-bit extended length read of `readWebSocketFrame`
(`payloadLength = ((b1 shl 8) or b2).toLong()`). -/
def readExtLen2 : List Nat → Option (Nat × List Nat)
  | b1 :: b2 :: rest => some ((b1 <<< 8) ||| b2, rest)
  | _ => none

/-- The 64-bit extended length read of `readWebSocketFrame`: eight times
`len = (len shl 8) or input.read().toLong()` starting from `0`. -/
def readExtLen8 : List Nat → Option (Nat × List Nat)
  | b0 :: b1 :: b2 :: b3 :: b4 :: b5 :: b6 :: b7 :: rest =>
      let l1 := (b0 <<< 8) ||| b1
      let l2 := (l1 <<< 8) ||| b2
      let l3 := (l2 <<< 8) ||| b3
      let l4 := (l3 <<< 8) ||| b4
      let l5 := (l4 <<< 8) ||| b5
      let l6 := (l5 <<< 8) ||| b6
      let l7 := (l6 <<< 8) ||| b7
      some (l7, rest)
  | _ => none

/-- The mask-key read `ByteArray(4).also { input.read(it) }`: up to four
bytes from the stream, the zero-initialised remainder kept on a short
stream. -/
def readMaskKey (s : List Nat) : List Nat × List Nat :=
  (s.take 4 ++ List.replicate (4 - (s.take 4).length) 0, s.drop 4)

/-- The payload read loop of `readWebSocketFrame`: a zero-initialised
`ByteArray(len)` filled from the stream until `len` bytes were read or the
stream ends (`if (n == -1) break`). -/
def readPayloadBytes (len : Nat) (s : List Nat) : List Nat × List Nat :=
  (s.take len ++ List.replicate (len - (s.take len).length) 0, s.drop len)

/-- The masking loop shared by encoder and decoder:
`out[i] = (payload[i].toInt() xor maskKey[i % 4].toInt()).toByte()`, with
`.toByte()` rendered as `% 256` on the unsigned byte values.  `i` is the
running index (the loops start it at `0`). -/
def maskBytes (maskKey : List Nat) : Nat → List Nat → List Nat
  | _, [] => []
  | i, b :: rest => ((b ^^^ maskKey.getD (i % 4) 0) % 256) :: maskBytes maskKey (i + 1) rest

/-! ## Frame encoder (`sendWebSocketFrame`, SamsungTvClient.kt:589-618)

The source draws a fresh 4-byte mask key from `SecureRandom`; here the mask
key is an explicit argument.  The header puts `0x81` (FIN + text opcode),
then either `0x80 or size` for sizes of at most 125, or the marker byte
`0xFE` (`0x80 or 126`) followed by `putShort(size.toShort())` — two
big-endian bytes of the size truncated to 16 bits.  There is no 64-bit
(`127`) branch in the source.  The mask key follows the length field, then
the masked payload. -/

/-- Client frame encoder `sendWebSocketFrame` as the list of bytes written
to the output stream. -/
def sendWebSocketFrame (payload maskKey : List Nat) : List Nat :=
  (if payload.length ≤ 125 then
    [0x81, 0x80 ||| payload.length]
  else
    [0x81, 0xFE, payload.length % 65536 / 256, payload.length % 256])
  ++ maskKey ++ maskBytes maskKey 0 payload

/-! ## Frame decoder (`readWebSocketFrame`, SamsungTvClient.kt:501-584)

The decoder reads the two header bytes, expands the three-tier length
field, reads the mask key when the mask bit is set, then allocates
`ByteArray(payloadLength.toInt())` — with no maximum — and fills it from
the stream.  `Long.toInt()` keeps the low 32 bits; a declared length whose
low 32 bits are negative makes `ByteArray` throw (caught, `null`), and a
declared length of `2^31` or more can therefore never produce a payload, so
the model returns `none` there (the source throws or never terminates).
Opcodes: text/binary return the (unmasked) payload, close returns `null`,
ping/pong recurse for the next frame.  The recursion consumes at least two
bytes per frame, so fuel `input.length + 1` never runs out; the fuel-0 case
is unreachable. -/

/-- Parse of one frame up to the opcode dispatch: the two header bytes,
the three-tier length expansion, the mask key when the mask bit is set,
and the (unmasked) payload; returns the opcode, the payload and the
remaining stream. -/
def readFrameOnce (input : List Nat) : Option (Nat × List Nat × List Nat) :=
  match read1 input with
  | none => none
  | some (byte1, s1) =>
    match read1 s1 with
    | none => none
    | some (byte2, s2) =>
      let opcode := byte1 &&& 0x0F
      let masked := byte2 &&& 0x80 ≠ 0
      let len7 := byte2 &&& 0x7F
      match
        (if len7 = 126 then readExtLen2 s2
         else if len7 = 127 then readExtLen8 s2
         else some (len7, s2)) with
      | none => none
      | some (payloadLength, s3) =>
        if payloadLength ≥ 2 ^ 31 then none
        else
          let mks4 := if masked then
              (let mk := readMaskKey s3; (some mk.1, mk.2))
            else (none, s3)
          let raw := readPayloadBytes payloadLength mks4.2
          let payload :=
            match mks4.1 with
            | some mk => maskBytes mk 0 raw.1
            | none => raw.1
          some (opcode, payload, raw.2)

/-- Frame decoder body: opcode dispatch around `readFrameOnce`,
structurally recursive on fuel for the ping/pong recursion. -/
def readWebSocketFrameLoop : Nat → List Nat → Option (List Nat)
  | 0, _ => none
  | fuel + 1, input =>
    match readFrameOnce input with
    | none => none
    | some (opcode, payload, s5) =>
      if opcode = 0x1 then some payload
      else if opcode = 0x2 then some payload
      else if opcode = 0x8 then none
      else if opcode = 0x9 then readWebSocketFrameLoop fuel s5
      else if opcode = 0xA then readWebSocketFrameLoop fuel s5
      else some payload

/-- Decoder `readWebSocketFrame`: one application-level message from the
stream (`none` on close / end of stream / error). -/
def readWebSocketFrame (input : List Nat) : Option (List Nat) :=
  readWebSocketFrameLoop (input.length + 1) input

/-- Two's-complement `Long.toInt()` on the unsigned reading. -/
def toInt32 (n : Nat) : Int :=
  if n % 4294967296 < 2147483648 then ((n % 4294967296 : Nat) : Int)
  else ((n % 4294967296 : Nat) : Int) - 4294967296

/-- The exact `ByteArray` size `readWebSocketFrame` requests for the first
frame of the stream (`ByteArray(payloadLength.toInt())` at
SamsungTvClient.kt:533), after the same header and mask-key reads; `none`
when the decoder bails out before the allocation. -/
def frameAllocSize (input : List Nat) : Option Int :=
  match read1 input with
  | none => none
  | some (_, s1) =>
    match read1 s1 with
    | none => none
    | some (byte2, s2) =>
      let masked := byte2 &&& 0x80 ≠ 0
      let len7 := byte2 &&& 0x7F
      match
        (if len7 = 126 then readExtLen2 s2
         else if len7 = 127 then readExtLen8 s2
         else some (len7, s2)) with
      | none => none
      | some (payloadLength, _) =>
        let _ := if masked then some (readMaskKey s2).1 else none
        some (toInt32 payloadLength)

/-! ## Codec lemmas -/

/-- Facts about the literal length byte `0x80 or size` for sizes up to 125:
the mask bit is set and the low seven bits are the size. -/
theorem literalLenByte_facts : ∀ i < 126, ((128 ||| i) &&& 128 ≠ 0 ∧ (128 ||| i) &&& 127 = i) := by
  decide

/-- Recombining a big-endian byte under a left shift. -/
theorem shl8_lor_eq (a b : Nat) (hb : b < 256) : (a <<< 8) ||| b = 256 * a + b := by
  have hb' : b < 2 ^ 8 := by omega
  apply Nat.eq_of_testBit_eq
  intro i
  rw [Nat.testBit_lor, Nat.testBit_shiftLeft]
  rcases Nat.lt_or_ge i 8 with hi | hi
  · have h1 : (256 * a + b).testBit i = b.testBit i := by
      have h0 : 256 * a = 2 ^ 8 * a := by norm_num
      rw [h0, Nat.testBit_mul_pow_two_add a hb' i]
      simp [hi]
    rw [h1]
    simp [Nat.not_le.mpr hi]
  · have h1 : (256 * a + b).testBit i = a.testBit (i - 8) := by
      have h0 : 256 * a = 2 ^ 8 * a := by norm_num
      rw [h0, Nat.testBit_mul_pow_two_add a hb' i]
      simp [Nat.not_lt.mpr hi]
    rw [h1]
    have hbf : b.testBit i = false :=
      Nat.testBit_eq_false_of_lt (lt_of_lt_of_le hb' (Nat.pow_le_pow_right (by norm_num) hi))
    simp [hbf, hi]

/-- A default-0 lookup in a list of bytes is a byte. -/
theorem getD_lt_256 (l : List Nat) (j : Nat) (h : ∀ m ∈ l, m < 256) : l.getD j 0 < 256 := by
  rcases Nat.lt_or_ge j l.length with hj | hj
  · rw [List.getD_eq_getElem l 0 hj]
    exact h _ (List.getElem_mem hj)
  · rw [List.getD_eq_default l 0 hj]
    norm_num

/-- XOR of two bytes is a byte. -/
theorem xor_lt_256 (a b : Nat) (ha : a < 256) (hb : b < 256) : a ^^^ b < 256 := by
  have h : (256 : Nat) = 2 ^ 8 := by norm_num
  rw [h] at *
  exact Nat.bitwise_lt ha hb

/-- Masking keeps the length. -/
theorem maskBytes_length (mk : List Nat) : ∀ (i : Nat) (l : List Nat),
    (maskBytes mk i l).length = l.length := by
  intro i l
  induction l generalizing i with
  | nil => rfl
  | cons b rest ih => simp [maskBytes, ih]

/-- Masking a byte list with a byte-valued key is an involution
(`(x xor m) xor m = x`). -/
theorem maskBytes_maskBytes (mk : List Nat) (hm : ∀ m ∈ mk, m < 256) :
    ∀ (l : List Nat) (i : Nat), (∀ b ∈ l, b < 256) →
      maskBytes mk i (maskBytes mk i l) = l := by
  intro l
  induction l with
  | nil => intro i _; rfl
  | cons b rest ih =>
    intro i hb
    have hbb : b < 256 := hb b (List.mem_cons_self _ _)
    have hkey : mk.getD (i % 4) 0 < 256 := getD_lt_256 mk _ hm
    have hx : b ^^^ mk.getD (i % 4) 0 < 256 := xor_lt_256 _ _ hbb hkey
    have hmod : (b ^^^ mk.getD (i % 4) 0) % 256 = b ^^^ mk.getD (i % 4) 0 :=
      Nat.mod_eq_of_lt hx
    simp only [maskBytes, hmod]
    rw [Nat.xor_assoc, Nat.xor_self, Nat.xor_zero, Nat.mod_eq_of_lt hbb]
    congr 1
    exact ih (i + 1) (fun x hx' => hb x (List.mem_cons_of_mem _ hx'))

/-- Bytes of a masked payload are bytes. -/
theorem maskBytes_lt_256 (mk : List Nat) : ∀ (i : Nat) (l : List Nat), ∀ b ∈ maskBytes mk i l, b < 256 := by
  intro i l
  induction l generalizing i with
  | nil => intro b hb; simp [maskBytes] at hb
  | cons x rest ih =>
    intro b hb
    simp only [maskBytes, List.mem_cons] at hb
    rcases hb with h | h
    · subst h; exact Nat.mod_lt _ (by norm_num)
    · exact ih (i + 1) b h

/-- Round trip through the codec for payloads that use the literal length
byte (size at most 125). -/
theorem readFrame_sendFrame_le125 (p mk : List Nat) (hp : ∀ b ∈ p, b < 256)
    (hm : ∀ m ∈ mk, m < 256) (hmk : mk.length = 4) (hlen : p.length ≤ 125) :
    readWebSocketFrame (sendWebSocketFrame p mk) = some p := by
  have hlow : (0x80 ||| p.length) &&& 0x7F = p.length :=
    (literalLenByte_facts p.length (by omega)).2
  have hmaskbit : (0x80 ||| p.length) &&& 0x80 ≠ 0 :=
    (literalLenByte_facts p.length (by omega)).1
  have hp126 : ¬ (p.length = 126) := by omega
  have hp127 : ¬ (p.length = 127) := by omega
  have hg : ¬ (p.length ≥ 2 ^ 31) := by omega
  have ht : (mk ++ maskBytes mk 0 p).take 4 = mk := by
    conv_lhs => rw [← hmk]
    exact List.take_left _ _
  have hd : (mk ++ maskBytes mk 0 p).drop 4 = maskBytes mk 0 p := by
    conv_lhs => rw [← hmk]
    exact List.drop_left _ _
  have hT : (maskBytes mk 0 p).take p.length = maskBytes mk 0 p := by
    conv_lhs => rw [← maskBytes_length mk 0 p]
    exact List.take_length _
  have hD : (maskBytes mk 0 p).drop p.length = [] := by
    conv_lhs => rw [← maskBytes_length mk 0 p]
    exact List.drop_length _
  have hMM := maskBytes_maskBytes mk hm p 0 hp
  have hframe : sendWebSocketFrame p mk
      = 0x81 :: (0x80 ||| p.length) :: (mk ++ maskBytes mk 0 p) := by
    simp [sendWebSocketFrame, hlen]
  have hopc : (129 &&& 15 : Nat) = 1 := by decide
  have honce : readFrameOnce (0x81 :: (0x80 ||| p.length) :: (mk ++ maskBytes mk 0 p))
      = some (1, p, []) := by
    simp only [readFrameOnce, read1, hlow, hmaskbit, hp126, hp127, hg, ite_true,
      ite_false, ne_eq, not_false_eq_true]
    simp [readMaskKey, readPayloadBytes, ht, hd, hT, hD, hmk, maskBytes_length, hMM, hopc]
  rw [hframe]
  simp only [readWebSocketFrame, readWebSocketFrameLoop, honce]
  norm_num

/-- Round trip through the codec for payloads that use the 16-bit length
field (sizes 126 to 65535, marker byte 126). -/
theorem readFrame_sendFrame_le65535 (p mk : List Nat) (hp : ∀ b ∈ p, b < 256)
    (hm : ∀ m ∈ mk, m < 256) (hmk : mk.length = 4) (hlen1 : 126 ≤ p.length)
    (hlen2 : p.length ≤ 65535) :
    readWebSocketFrame (sendWebSocketFrame p mk) = some p := by
  have hmod : p.length % 65536 = p.length := Nat.mod_eq_of_lt (by omega)
  have hframe : sendWebSocketFrame p mk
      = 0x81 :: 0xFE :: (p.length / 256) :: (p.length % 256) :: (mk ++ maskBytes mk 0 p) := by
    simp only [sendWebSocketFrame, hmod]
    rw [if_neg (by omega)]
    simp
  have hcomb : ((p.length / 256) <<< 8) ||| (p.length % 256) = p.length := by
    rw [shl8_lor_eq _ _ (Nat.mod_lt _ (by norm_num))]
    exact Nat.div_add_mod _ _
  have hA : (254 &&& 127 : Nat) = 126 := by decide
  have hB : ¬ ((254 &&& 128 : Nat) = 0) := by decide
  have hC : (129 &&& 15 : Nat) = 1 := by decide
  have hg : ¬ (p.length ≥ 2 ^ 31) := by omega
  have ht : (mk ++ maskBytes mk 0 p).take 4 = mk := by
    conv_lhs => rw [← hmk]
    exact List.take_left _ _
  have hd : (mk ++ maskBytes mk 0 p).drop 4 = maskBytes mk 0 p := by
    conv_lhs => rw [← hmk]
    exact List.drop_left _ _
  have hT : (maskBytes mk 0 p).take p.length = maskBytes mk 0 p := by
    conv_lhs => rw [← maskBytes_length mk 0 p]
    exact List.take_length _
  have hD : (maskBytes mk 0 p).drop p.length = [] := by
    conv_lhs => rw [← maskBytes_length mk 0 p]
    exact List.drop_length _
  have hMM := maskBytes_maskBytes mk hm p 0 hp
  have honce : readFrameOnce
      (0x81 :: 0xFE :: (p.length / 256) :: (p.length % 256) :: (mk ++ maskBytes mk 0 p))
      = some (1, p, []) := by
    simp only [readFrameOnce, read1, readExtLen2, hA, hB, hC, hcomb, ite_true, ite_false,
      ne_eq, not_false_eq_true, if_pos rfl, if_neg hB]
    norm_num
    simp [hg, readMaskKey, readPayloadBytes, ht, hd, hT, hD, hmk, maskBytes_length, hMM]
    omega
  rw [hframe]
  simp only [readWebSocketFrame, readWebSocketFrameLoop, honce]
  norm_num

/-- C1 (amended).  Frame codec round-trip: decoding a client-encoded text
frame returns the original payload bytes for every payload of size at most
65535 — in particular for the sizes 0, 125 and 126 — with a literal length
byte `0x80 or size` for sizes up to 125 and the marker byte 126 with a
16-bit length for every larger payload.  The encoder has no 64-bit /
marker-127 branch: sizes above 65535 also take the marker-126 header (with
the size truncated to 16 bits), which is why the round trip stops at
65535. -/
theorem frame_codec_roundtrip (p mk : List Nat) (hp : ∀ b ∈ p, b < 256)
    (hm : ∀ m ∈ mk, m < 256) (hmk : mk.length = 4) :
    (p.length ≤ 65535 → readWebSocketFrame (sendWebSocketFrame p mk) = some p)
    ∧ (p.length ≤ 125 →
        (sendWebSocketFrame p mk).take 2 = [0x81, 0x80 ||| p.length])
    ∧ (125 < p.length →
        (sendWebSocketFrame p mk).take 4
          = [0x81, 0xFE, p.length % 65536 / 256, p.length % 256]) := by
  refine ⟨?_, ?_, ?_⟩
  · intro hlen
    rcases le_or_lt p.length 125 with h | h
    · exact readFrame_sendFrame_le125 p mk hp hm hmk h
    · exact readFrame_sendFrame_le65535 p mk hp hm hmk (by omega) hlen
  · intro hlen
    simp [sendWebSocketFrame, hlen]
  · intro hlen
    rw [sendWebSocketFrame, if_neg (by omega)]
    simp

set_option maxRecDepth 10000 in
/-- Witness for `frame_codec_roundtrip` at a concrete 126-byte payload (the
16-bit boundary). -/
theorem frame_codec_roundtrip_witness :
    readWebSocketFrame (sendWebSocketFrame (List.replicate 126 7) [1, 2, 3, 4])
      = some (List.replicate 126 7) :=
  (frame_codec_roundtrip (List.replicate 126 7) [1, 2, 3, 4]
    (by decide) (by decide) (by decide)).1 (by decide)

/-- Helper: decoding a frame whose header declares a 16-bit length of zero
returns the empty payload, whatever bytes follow the mask key. -/
theorem readFrame_zero16 (M : List Nat) :
    readWebSocketFrame (129 :: 254 :: 0 :: 0 :: ([1, 2, 3, 4] ++ M)) = some [] := by
  have hA : (254 &&& 127 : Nat) = 126 := by decide
  have hB : ¬ ((254 &&& 128 : Nat) = 0) := by decide
  have hC : (129 &&& 15 : Nat) = 1 := by decide
  have hz : ((0 <<< 8 : Nat) ||| 0) = 0 := by decide
  have honce : readFrameOnce (129 :: 254 :: 0 :: 0 :: ([1, 2, 3, 4] ++ M))
      = some (1, [], M) := by
    simp only [readFrameOnce, read1, readExtLen2, hA, hB, hC, hz, ite_true, ite_false,
      ne_eq, not_false_eq_true, if_pos rfl, if_neg hB]
    norm_num
    simp [readPayloadBytes, readMaskKey, maskBytes]
  simp only [readWebSocketFrame, readWebSocketFrameLoop, honce]
  norm_num

/-- C1 (counterexample).  A 65536-byte text payload is encoded with the
16-bit marker byte 126 and a length field truncated to 0 — not with the
64-bit marker 127 the claim requires — and decoding the encoded frame
yields the empty payload instead of the original 65536 bytes. -/
theorem frame_codec_65536_counterexample :
    (sendWebSocketFrame (List.replicate 65536 65) [1, 2, 3, 4]).take 4 = [0x81, 0xFE, 0, 0]
    ∧ readWebSocketFrame (sendWebSocketFrame (List.replicate 65536 65) [1, 2, 3, 4]) = some []
    ∧ some ([] : List Nat) ≠ some (List.replicate 65536 65) := by
  have hframe : sendWebSocketFrame (List.replicate 65536 65) [1, 2, 3, 4]
      = 129 :: 254 :: 0 :: 0 ::
        ([1, 2, 3, 4] ++ maskBytes [1, 2, 3, 4] 0 (List.replicate 65536 65)) := by
    simp only [sendWebSocketFrame, List.length_replicate]
    norm_num
  refine ⟨?_, ?_, ?_⟩
  · rw [hframe]
    rfl
  · rw [hframe]
    exact readFrame_zero16 _
  · intro h
    have h2 := congrArg List.length (Option.some.inj h)
    rw [List.length_replicate, List.length_nil] at h2
    exact absurd h2 (by norm_num)

/-- Big-endian 8-byte rendering of a 64-bit declared payload length, as a
peer would put it on the wire after marker byte 127. -/
def be8 (n : Nat) : List Nat :=
  [n >>> 56 % 256, n >>> 48 % 256, n >>> 40 % 256, n >>> 32 % 256,
   n >>> 24 % 256, n >>> 16 % 256, n >>> 8 % 256, n % 256]

/-- The decoder's 64-bit length read recombines the eight big-endian bytes
into the declared value. -/
theorem readExtLen8_be8 (n : Nat) (hn : n < 2 ^ 64) (rest : List Nat) :
    readExtLen8 (be8 n ++ rest) = some (n, rest) := by
  have hb : ∀ a b : Nat, (a <<< 8) ||| (b % 256) = 256 * a + b % 256 := fun a b =>
    shl8_lor_eq a _ (Nat.mod_lt _ (by norm_num))
  simp only [be8, List.cons_append, List.nil_append, readExtLen8, hb]
  have hval : 256 * (256 * (256 * (256 * (256 * (256 * (256 * (n >>> 56 % 256)
      + n >>> 48 % 256) + n >>> 40 % 256) + n >>> 32 % 256) + n >>> 24 % 256)
      + n >>> 16 % 256) + n >>> 8 % 256) + n % 256 = n := by
    simp only [Nat.shiftRight_eq_div_pow]
    norm_num
    omega
  rw [hval]

/-- `Long.toInt()` is the identity below `2^31`. -/
theorem toInt32_small (n : Nat) (hn : n < 2 ^ 31) : toInt32 n = (n : Int) := by
  unfold toInt32
  rw [Nat.mod_eq_of_lt (by omega)]
  rw [if_pos (by omega)]

/-- C2 (amended).  `readWebSocketFrame` imposes no maximum on the declared
payload length: for every unmasked text frame declaring a 64-bit length
`n < 2^31`, the `ByteArray` allocation it performs is exactly `n` — the
declared size — rather than a rejection or a cap.  (Declared lengths of
`2^31` and above fail only incidentally, through the negative-array-size
exception of `Long.toInt()`.) -/
theorem readFrame_unbounded_alloc (n : Nat) (hn : n < 2 ^ 31) :
    frameAllocSize (0x81 :: 0x7F :: be8 n) = some (n : Int) := by
  have h126 : ¬ ((127 &&& 127 : Nat) = 126) := by decide
  have h127 : (127 &&& 127 : Nat) = 127 := by decide
  have hlen : readExtLen8 (be8 n) = some (n, []) := by
    have := readExtLen8_be8 n (by omega) []
    rwa [List.append_nil] at this
  simp only [frameAllocSize, read1, h126, h127, hlen, ite_true, ite_false, if_pos rfl,
    if_neg h126]
  norm_num
  exact toInt32_small n hn

/-- Witness for `readFrame_unbounded_alloc` at the concrete declared length
70000 (above the whole 16-bit range). -/
theorem readFrame_unbounded_alloc_witness :
    frameAllocSize (0x81 :: 0x7F :: be8 70000) = some (70000 : Int) :=
  readFrame_unbounded_alloc 70000 (by norm_num)

/-- C2 (counterexample).  On a 10-byte input declaring a 2^30-byte (1 GiB)
payload, the decoder allocates the full declared size and returns a payload
of that length — it neither rejects nor caps the declared length. -/
theorem readPayloadBytes_nil (n : Nat) : readPayloadBytes n [] = (List.replicate n 0, []) := by
  simp [readPayloadBytes]

theorem readFrame_no_bound_counterexample :
    frameAllocSize [0x81, 0x7F, 0, 0, 0, 0, 64, 0, 0, 0] = some (1073741824 : Int)
    ∧ (readWebSocketFrame [0x81, 0x7F, 0, 0, 0, 0, 64, 0, 0, 0]).map List.length
        = some 1073741824 := by
  have h126 : ¬ ((127 &&& 127 : Nat) = 126) := by decide
  have h126n : ¬ ((127 : Nat) = 126) := by decide
  have h127 : (127 &&& 127 : Nat) = 127 := by decide
  have hmb : (127 &&& 128 : Nat) = 0 := by decide
  have hC : (129 &&& 15 : Nat) = 1 := by decide
  have hlen : readExtLen8 [0, 0, 0, 0, 64, 0, 0, 0] = some (1073741824, []) := by decide
  have hg : ¬ ((1073741824 : Nat) ≥ 2 ^ 31) := by decide
  constructor
  · simp only [frameAllocSize, read1, h126, h127, hlen, ite_true, ite_false, if_pos rfl,
      if_neg h126]
    norm_num
    decide
  · have honce : readFrameOnce [0x81, 0x7F, 0, 0, 0, 0, 64, 0, 0, 0]
        = some (1, List.replicate 1073741824 0, []) := by
      simp only [readFrameOnce, read1, h127, h126n, hmb, hlen, hg, readPayloadBytes_nil,
        hC, ne_eq, eq_self_iff_true, not_true, ite_true, ite_false, if_neg, if_pos,
        not_false_eq_true]
    simp only [readWebSocketFrame, readWebSocketFrameLoop, List.length_cons,
      List.length_nil, honce, eq_self_iff_true, ite_true]
    rw [Option.map_some', List.length_replicate]

/-- C8.  Every client-encoded frame produced by `sendWebSocketFrame` has
the mask bit (0x80) set in its second byte, carries the 4-byte mask key
immediately after the length field (2 header bytes for sizes up to 125,
4 for larger sizes), and XOR-ing each masked payload byte with
`mask[i % 4]` recovers exactly the original payload bytes. -/
theorem sendFrame_always_masked (p mk : List Nat) (hp : ∀ b ∈ p, b < 256)
    (hm : ∀ m ∈ mk, m < 256) (hmk : mk.length = 4) :
    (sendWebSocketFrame p mk).getD 1 0 &&& 0x80 ≠ 0
    ∧ (sendWebSocketFrame p mk).drop (if p.length ≤ 125 then 2 else 4)
        = mk ++ maskBytes mk 0 p
    ∧ maskBytes mk 0 (maskBytes mk 0 p) = p := by
  refine ⟨?_, ?_, maskBytes_maskBytes mk hm p 0 hp⟩
  · rcases le_or_lt p.length 125 with h | h
    · have hframe : sendWebSocketFrame p mk
          = 0x81 :: (0x80 ||| p.length) :: (mk ++ maskBytes mk 0 p) := by
        simp [sendWebSocketFrame, h]
      rw [hframe]
      simp only [List.getD_cons_succ, List.getD_cons_zero]
      exact (literalLenByte_facts p.length (by omega)).1
    · have hframe : sendWebSocketFrame p mk
          = 0x81 :: 0xFE :: (p.length % 65536 / 256) :: (p.length % 256)
            :: (mk ++ maskBytes mk 0 p) := by
        rw [sendWebSocketFrame, if_neg (by omega)]
        simp
      rw [hframe]
      simp only [List.getD_cons_succ, List.getD_cons_zero]
      decide
  · rcases le_or_lt p.length 125 with h | h
    · rw [if_pos h, sendWebSocketFrame, if_pos h]
      rfl
    · rw [if_neg (by omega), sendWebSocketFrame, if_neg (by omega)]
      rfl

/-- Witness for `sendFrame_always_masked` at a concrete two-byte payload. -/
theorem sendFrame_always_masked_witness :
    (sendWebSocketFrame [10, 20] [9, 8, 7, 6]).getD 1 0 &&& 0x80 ≠ 0
    ∧ (sendWebSocketFrame [10, 20] [9, 8, 7, 6]).drop
        (if ([10, 20] : List Nat).length ≤ 125 then 2 else 4)
        = [9, 8, 7, 6] ++ maskBytes [9, 8, 7, 6] 0 [10, 20]
    ∧ maskBytes [9, 8, 7, 6] 0 (maskBytes [9, 8, 7, 6] 0 [10, 20]) = [10, 20] :=
  sendFrame_always_masked [10, 20] [9, 8, 7, 6] (by decide) (by decide) (by decide)

/-! ## String utilities shared by the embedded Kotlin/TypeScript code -/

/-- Substring test on character lists: does the haystack contain the needle
as a contiguous run?  (Kotlin `String.contains`, JS `String.includes`.) -/
def listContainsSub (needle : List Char) : List Char → Bool
  | [] => needle.isEmpty
  | c :: rest => needle.isPrefixOf (c :: rest) || listContainsSub needle rest

/-- Kotlin `String.contains` / JS `String.includes`. -/
def strContains (s sub : String) : Bool :=
  listContainsSub sub.data s.data

/-- ASCII lower-casing (`String.lowercase` / `toLowerCase` restricted to the
ASCII identifiers the handlers compare). -/
def toLowerStr (s : String) : String :=
  String.mk (s.data.map Char.toLower)

/-! ## Token repository (android/.../TokenRepository.kt)

The repository is a `SharedPreferences`-backed map from `"tv_token_" + ip`
to the token, plus the singleton `last_connected_ip` entry; it is modelled
as a map from the ip to the token. -/

/-- Persistent token store. -/
structure TokenRepository where
  tokens : String → Option String
  lastIp : Option String

/-- Empty store (no preferences written yet). -/
def TokenRepository.empty : TokenRepository :=
  { tokens := fun _ => none, lastIp := none }

/-- `getToken(ip)`. -/
def TokenRepository.getToken (r : TokenRepository) (ip : String) : Option String :=
  r.tokens ip

/-- `saveToken(ip, token)`. -/
def TokenRepository.saveToken (r : TokenRepository) (ip token : String) : TokenRepository :=
  { r with tokens := fun k => if k = ip then some token else r.tokens k }

/-- `clearToken(ip)`. -/
def TokenRepository.clearToken (r : TokenRepository) (ip : String) : TokenRepository :=
  { r with tokens := fun k => if k = ip then none else r.tokens k }

/-- `setLastConnectedIp(ip)`. -/
def TokenRepository.setLastConnectedIp (r : TokenRepository) (ip : String) : TokenRepository :=
  { r with lastIp := some ip }

/-! ## Token extraction and the first post-handshake message
(`connectRawWebSocket`, SamsungTvClient.kt:432-491)

The success branch extracts the pairing token with the regular expression
`"token"\s*:\s*"([^"]+)"`; the scan below tries the pattern at each start
position in turn, which matches `Regex.find`'s first-match semantics
(`\s` is rendered as `Char.isWhitespace`). -/

/-- Try the token pattern at the head of `cs`; return the capture group. -/
def tokenMatchAt (cs : List Char) : Option String :=
  match cs with
  | '"' :: 't' :: 'o' :: 'k' :: 'e' :: 'n' :: '"' :: r1 =>
    match (r1.dropWhile Char.isWhitespace) with
    | ':' :: r2 =>
      match (r2.dropWhile Char.isWhitespace) with
      | '"' :: r3 =>
        let cap := r3.takeWhile (fun c => c ≠ '"')
        if cap.isEmpty then none
        else
          match r3.drop cap.length with
          | '"' :: _ => some (String.mk cap)
          | _ => none
      | _ => none
    | _ => none
  | _ => none

/-- First match of the token pattern anywhere in the text. -/
def findTokenMatch : List Char → Option String
  | [] => none
  | c :: rest =>
    match tokenMatchAt (c :: rest) with
    | some t => some t
    | none => findTokenMatch rest

/-- Kotlin `String.isNotBlank()`. -/
def isNotBlank (s : String) : Bool :=
  s.data.any (fun c => !c.isWhitespace)

/-- Terminal classification of the first post-handshake message. -/
inductive FirstMsgOutcome where
  | connected
  | unauthorizedDenied
  | inconclusive
deriving DecidableEq

/-- Token-store effect and outcome of the first post-handshake message in
`connectRawWebSocket` (SamsungTvClient.kt:442-491): a message containing
`ms.channel.connect` or `ms.channel.ready` saves any non-blank token found
by the regex and records the last connected ip; otherwise a message
containing `ms.channel.unauthorized` clears the stored token for this ip;
anything else changes nothing (left to the watchdog). -/
def connectRawWebSocketFirstMsg (firstMsg ip : String) (repo : TokenRepository) :
    TokenRepository × FirstMsgOutcome :=
  if strContains firstMsg "ms.channel.connect" || strContains firstMsg "ms.channel.ready" then
    let repo1 :=
      match findTokenMatch firstMsg.data with
      | some token => if isNotBlank token then repo.saveToken ip token else repo
      | none => repo
    (repo1.setLastConnectedIp ip, .connected)
  else if strContains firstMsg "ms.channel.unauthorized" then
    (repo.clearToken ip, .unauthorizedDenied)
  else
    (repo, .inconclusive)

/-- `isNullOrEmpty` on an optional string. -/
def isNullOrEmpty : Option String → Bool
  | none => true
  | some t => t.isEmpty

/-- Handshake path built by `SamsungTvClient.connect`
(SamsungTvClient.kt:300-310): the stored token is appended as a query
parameter only when present and non-empty. -/
def connectHandshakePath (appNameB64 : String) (storedToken : Option String) : String :=
  if isNullOrEmpty storedToken then
    "/api/v2/channels/samsung.remote.control?name=" ++ appNameB64
  else
    "/api/v2/channels/samsung.remote.control?name=" ++ appNameB64
      ++ "&token=" ++ storedToken.getD ""

/-- C3.  Token-store invariant of the raw connect path: (a) in the branches
taken when the first message does not indicate pairing success (it contains
neither `ms.channel.connect` nor `ms.channel.ready`), no token is created
or updated — every stored token is either left unchanged or cleared; (b) on
a message containing `ms.channel.unauthorized` (and not the success
markers), the stored token for this ip is cleared, and the handshake path a
next `connect` builds from the cleared store carries no token query
parameter. -/
theorem token_store_invariant (msg ip : String) (repo : TokenRepository) :
    (¬ (strContains msg "ms.channel.connect" = true
        ∨ strContains msg "ms.channel.ready" = true) →
      ∀ y, (connectRawWebSocketFirstMsg msg ip repo).1.getToken y = repo.getToken y
        ∨ (connectRawWebSocketFirstMsg msg ip repo).1.getToken y = none)
    ∧ (strContains msg "ms.channel.connect" = false →
       strContains msg "ms.channel.ready" = false →
       strContains msg "ms.channel.unauthorized" = true →
      (connectRawWebSocketFirstMsg msg ip repo).1.getToken ip = none
      ∧ ∀ appNameB64,
          connectHandshakePath appNameB64
            ((connectRawWebSocketFirstMsg msg ip repo).1.getToken ip)
            = "/api/v2/channels/samsung.remote.control?name=" ++ appNameB64) := by
  constructor
  · intro h y
    have hc : strContains msg "ms.channel.connect" = false := by
      cases hx : strContains msg "ms.channel.connect"
      · rfl
      · exact absurd (Or.inl hx) h
    have hr : strContains msg "ms.channel.ready" = false := by
      cases hx : strContains msg "ms.channel.ready"
      · rfl
      · exact absurd (Or.inr hx) h
    cases hu : strContains msg "ms.channel.unauthorized"
    · left
      simp [connectRawWebSocketFirstMsg, hc, hr, hu, TokenRepository.getToken]
    · simp only [connectRawWebSocketFirstMsg, hc, hr, hu, Bool.false_or, Bool.or_false,
        ite_false, ite_true, Bool.false_eq_true, if_false, if_true]
      by_cases hy : y = ip
      · right
        simp [TokenRepository.clearToken, TokenRepository.getToken, hy]
      · left
        simp [TokenRepository.clearToken, TokenRepository.getToken, hy]
  · intro hc hr hu
    have hclear : (connectRawWebSocketFirstMsg msg ip repo).1
        = repo.clearToken ip := by
      simp [connectRawWebSocketFirstMsg, hc, hr, hu]
    rw [hclear]
    have hnone : (repo.clearToken ip).getToken ip = none := by
      simp [TokenRepository.clearToken, TokenRepository.getToken]
    refine ⟨hnone, ?_⟩
    intro appNameB64
    rw [hnone]
    rfl

/-- Witness for `token_store_invariant`: an unauthorized reply for
`192.168.1.50` clears the previously stored token and the next handshake
path is the token-less one. -/
theorem token_store_invariant_witness :
    (connectRawWebSocketFirstMsg "event: ms.channel.unauthorized" "192.168.1.50"
        (TokenRepository.empty.saveToken "192.168.1.50" "OLDTOKEN")).1.getToken
          "192.168.1.50" = none
    ∧ connectHandshakePath "QXBw"
        ((connectRawWebSocketFirstMsg "event: ms.channel.unauthorized" "192.168.1.50"
          (TokenRepository.empty.saveToken "192.168.1.50" "OLDTOKEN")).1.getToken
            "192.168.1.50")
        = "/api/v2/channels/samsung.remote.control?name=" ++ "QXBw" := by
  have h := (token_store_invariant "event: ms.channel.unauthorized" "192.168.1.50"
    (TokenRepository.empty.saveToken "192.168.1.50" "OLDTOKEN")).2
    (by decide) (by decide) (by decide)
  exact ⟨h.1, h.2 "QXBw"⟩

/-! ## Connect watchdog and completion callback
(`SamsungTvClient.connect` SamsungTvClient.kt:293-352 and the terminal
branches of `connectRawWebSocket` SamsungTvClient.kt:435-491)

One connect attempt owns: `pendingConnectionCallback` (consumed by a
null-check followed by nulling the field and invoking the callback),
`connectionTimeoutRunnable` armed for 15 s on the main handler, and the
`isConnecting` flag.  The terminal handlers are

* the watchdog runnable itself (kt:315-325): consume the pending callback
  with failure;
* the pairing-success branch (kt:442-465): remove the watchdog, consume the
  pending callback with success;
* the unauthorized branch (kt:467-486): remove the watchdog, consume the
  pending callback with failure, then throw (which sends the connect thread
  into the `ws` fallback attempt);
* the fallback-exhausted catch (kt:337-349): remove the watchdog, consume
  the pending callback with failure.

The coarse model below treats each handler as one atomic step
(run-to-completion) and interleaves the watchdog firing at an arbitrary
point of the connect thread's step sequence. -/

/-- Watchdog timer state: armed on the main handler, removed by
`removeCallbacks`, or already fired. -/
inductive WatchdogSt where
  | armed
  | removed
  | fired
deriving DecidableEq

/-- Observable per-attempt connection state, instrumented with the number
of completion-callback invocations and watchdog firings. -/
structure ConnAttemptSt where
  pending : Bool
  watchdog : WatchdogSt
  isConnecting : Bool
  cbCount : Nat
  fireCount : Nat
deriving DecidableEq

/-- State at the moment `connect` has armed the watchdog and started the
connect thread (kt:314-330). -/
def ConnAttemptSt.init : ConnAttemptSt :=
  { pending := true, watchdog := .armed, isConnecting := true, cbCount := 0, fireCount := 0 }

/-- The watchdog runnable fires (kt:315-325): only possible while armed (a
removed or one-shot-consumed runnable does not run again); it consumes the
pending callback if still there. -/
def fireWatchdog (s : ConnAttemptSt) : ConnAttemptSt :=
  match s.watchdog with
  | .armed =>
    let s1 := { s with watchdog := .fired, fireCount := s.fireCount + 1 }
    if s1.pending then
      { s1 with pending := false, isConnecting := false, cbCount := s1.cbCount + 1 }
    else s1
  | _ => s

/-- `connectionTimeoutRunnable?.let { mainHandler.removeCallbacks(it) }`:
a no-op unless the runnable is still queued. -/
def cancelWatchdog (s : ConnAttemptSt) : ConnAttemptSt :=
  match s.watchdog with
  | .armed => { s with watchdog := .removed }
  | _ => s

/-- Pairing-success branch (kt:442-465): cancel the watchdog, drop
`isConnecting`, consume the pending callback (with success). -/
def applySuccess (s : ConnAttemptSt) : ConnAttemptSt :=
  let s1 := cancelWatchdog s
  let s2 := { s1 with isConnecting := false }
  if s2.pending then { s2 with pending := false, cbCount := s2.cbCount + 1 } else s2

/-- Unauthorized branch (kt:467-486): same watchdog/callback effect as
success, but the callback reports failure and the branch then throws. -/
def applyUnauthorized (s : ConnAttemptSt) : ConnAttemptSt :=
  applySuccess s

/-- Fallback-exhausted catch (kt:337-349): cancel the watchdog, drop
`isConnecting`, consume the pending callback with failure. -/
def applyExhausted (s : ConnAttemptSt) : ConnAttemptSt :=
  applySuccess s

/-- Unrecognized first message (kt:487-490): nothing happens; the watchdog
stays armed. -/
def applyUnexpected (s : ConnAttemptSt) : ConnAttemptSt := s

/-- Terminal outcome of one `connectRawWebSocket` attempt. -/
inductive AttemptOutcome where
  | success
  | unauthorized
  | unexpected
  | connError
deriving DecidableEq

/-- Steps the attempt contributes to the connect thread, and whether it
throws into the next fallback. -/
def attemptSteps : AttemptOutcome → List (ConnAttemptSt → ConnAttemptSt) × Bool
  | .success => ([applySuccess], false)
  | .unauthorized => ([applyUnauthorized], true)
  | .unexpected => ([applyUnexpected], false)
  | .connError => ([], true)

/-- The connect thread of `SamsungTvClient.connect` (kt:330-351): try
`wss:8002`; on a throw fall back to `ws:8001`; if that throws too, run the
exhausted branch. -/
def connectThreadSteps (o1 o2 : AttemptOutcome) : List (ConnAttemptSt → ConnAttemptSt) :=
  let a1 := attemptSteps o1
  if !a1.2 then a1.1
  else
    let a2 := attemptSteps o2
    a1.1 ++ a2.1 ++ (if a2.2 then [applyExhausted] else [])

/-- Run a list of atomic handler steps. -/
def runSteps (steps : List (ConnAttemptSt → ConnAttemptSt)) (s : ConnAttemptSt) : ConnAttemptSt :=
  steps.foldl (fun st f => f st) s

/-- One whole connect attempt: the connect thread's steps with the watchdog
firing interleaved at position `k` (or never). -/
def runConnectAttempt (o1 o2 : AttemptOutcome) (firePos : Option Nat) : ConnAttemptSt :=
  let steps := connectThreadSteps o1 o2
  match firePos with
  | none => runSteps steps ConnAttemptSt.init
  | some k => runSteps (steps.take k ++ [fireWatchdog] ++ steps.drop k) ConnAttemptSt.init

/-- Invariant tying the callback count to the watchdog state. -/
def ConnInv (s : ConnAttemptSt) : Prop :=
  (s.pending = true ↔ s.watchdog = .armed)
  ∧ s.cbCount = (if s.watchdog = .armed then 0 else 1)
  ∧ s.fireCount = (if s.watchdog = .fired then 1 else 0)

theorem connInv_init : ConnInv ConnAttemptSt.init := by
  refine ⟨by simp [ConnAttemptSt.init], by simp [ConnAttemptSt.init], by simp [ConnAttemptSt.init]⟩

theorem connInv_fireWatchdog (s : ConnAttemptSt) (h : ConnInv s) : ConnInv (fireWatchdog s) := by
  obtain ⟨h1, h2, h3⟩ := h
  rcases hw : s.watchdog with _ | _ | _ <;>
    simp [fireWatchdog, hw, ConnInv] at * <;>
    simp_all

theorem connInv_applySuccess (s : ConnAttemptSt) (h : ConnInv s) : ConnInv (applySuccess s) := by
  obtain ⟨h1, h2, h3⟩ := h
  rcases hw : s.watchdog with _ | _ | _ <;>
    simp [applySuccess, cancelWatchdog, hw, ConnInv] at * <;>
    simp_all

theorem connInv_runSteps (steps : List (ConnAttemptSt → ConnAttemptSt))
    (hsteps : ∀ f ∈ steps, ∀ s, ConnInv s → ConnInv (f s)) (s : ConnAttemptSt)
    (h : ConnInv s) : ConnInv (runSteps steps s) := by
  induction steps generalizing s with
  | nil => exact h
  | cons f rest ih =>
    exact ih (fun g hg => hsteps g (List.mem_cons_of_mem f hg)) (f s)
      (hsteps f (List.mem_cons_self f rest) s h)

theorem connectThreadSteps_sound (o1 o2 : AttemptOutcome) :
    ∀ f ∈ connectThreadSteps o1 o2, ∀ s, ConnInv s → ConnInv (f s) := by
  cases o1 <;> cases o2 <;>
    simp [connectThreadSteps, attemptSteps, applyUnauthorized, applyExhausted,
      applyUnexpected] <;>
    first
      | exact connInv_applySuccess
      | exact fun s h => h
      | (constructor <;>
          first
            | exact connInv_applySuccess
            | exact fun s h => h
            | (constructor <;>
                first
                  | exact connInv_applySuccess
                  | exact fun s h => h))

/-- C4 (amended).  Under run-to-completion execution of each terminal
handler: across every pair of attempt outcomes and every watchdog firing
position, the completion callback runs exactly once whenever the attempt
reaches a terminal outcome (the watchdog is then no longer armed) and zero
times otherwise; the one-shot watchdog body runs at most once; firing twice,
cancelling twice, and firing after a cancel are all no-ops. -/
theorem connect_callback_exactly_once :
    (∀ (o1 o2 : AttemptOutcome) (firePos : Option Nat),
      (runConnectAttempt o1 o2 firePos).cbCount
        = (if (runConnectAttempt o1 o2 firePos).watchdog = .armed then 0 else 1)
      ∧ (runConnectAttempt o1 o2 firePos).fireCount ≤ 1)
    ∧ (∀ s, fireWatchdog (fireWatchdog s) = fireWatchdog s)
    ∧ (∀ s, cancelWatchdog (cancelWatchdog s) = cancelWatchdog s)
    ∧ (∀ s, fireWatchdog (cancelWatchdog s) = cancelWatchdog s) := by
  refine ⟨?_, ?_, ?_, ?_⟩
  · intro o1 o2 firePos
    have hrun : ConnInv (runConnectAttempt o1 o2 firePos) := by
      rcases firePos with _ | k
      · exact connInv_runSteps _ (connectThreadSteps_sound o1 o2) _ connInv_init
      · refine connInv_runSteps _ ?_ _ connInv_init
        intro f hf
        simp only [List.mem_append, List.mem_singleton] at hf
        rcases hf with (hf | hf) | hf
        · exact connectThreadSteps_sound o1 o2 f (List.take_subset _ _ hf)
        · subst hf; exact connInv_fireWatchdog
        · exact connectThreadSteps_sound o1 o2 f (List.drop_subset _ _ hf)
    obtain ⟨h1, h2, h3⟩ := hrun
    refine ⟨h2, ?_⟩
    rw [h3]
    split <;> omega
  · intro s
    rcases hw : s.watchdog with _ | _ | _
    · by_cases hp : s.pending <;> simp [fireWatchdog, hw, hp]
    · simp [fireWatchdog, hw]
    · simp [fireWatchdog, hw]
  · intro s
    rcases hw : s.watchdog with _ | _ | _ <;> simp [cancelWatchdog, hw]
  · intro s
    rcases hw : s.watchdog with _ | _ | _ <;> simp [cancelWatchdog, fireWatchdog, hw]

/-! ### Sub-handler interleaving of the two callback consumers

`pendingConnectionCallback` is a plain field written by the main thread
(the watchdog runnable, kt:316-324) and by the connect thread (the
pairing-success branch, kt:454-460) with no synchronisation.  Each consumer
executes `pendingConnectionCallback?.let { cb -> pendingConnectionCallback
= null; ...; cb(...) }`: it (0) reads the field, and, if the read saw a
callback, (1) nulls the field and invokes the callback.  The model below
interleaves those micro-steps of the two consumers under sequential
consistency. -/

/-- Shared/per-thread state of the two racing consumers: `aPc`/`bPc` are
the program counters (0 = about to read, 1 = read saw the callback, about
to null-and-invoke, 2 = done), `aSaw`/`bSaw` the values the reads saw. -/
structure RaceSt where
  pending : Bool
  aSaw : Bool
  bSaw : Bool
  aPc : Nat
  bPc : Nat
  cbCount : Nat
deriving DecidableEq

/-- Both consumers are about to run; the callback is still pending. -/
def RaceSt.init : RaceSt :=
  { pending := true, aSaw := false, bSaw := false, aPc := 0, bPc := 0, cbCount := 0 }

/-- One micro-step of the watchdog runnable (thread A, main thread). -/
def raceStepA (s : RaceSt) : RaceSt :=
  match s.aPc with
  | 0 => if s.pending then { s with aSaw := true, aPc := 1 } else { s with aPc := 2 }
  | 1 => { s with pending := false, aPc := 2, cbCount := s.cbCount + 1 }
  | _ => s

/-- One micro-step of the pairing-success branch (thread B, connect
thread). -/
def raceStepB (s : RaceSt) : RaceSt :=
  match s.bPc with
  | 0 => if s.pending then { s with bSaw := true, bPc := 1 } else { s with bPc := 2 }
  | 1 => { s with pending := false, bPc := 2, cbCount := s.cbCount + 1 }
  | _ => s

/-- Run a schedule (`false` = thread A steps, `true` = thread B steps). -/
def raceRun (sched : List Bool) : RaceSt :=
  sched.foldl (fun s b => if b then raceStepB s else raceStepA s) RaceSt.init

/-- C4 (counterexample).  The claim's exactly-once guarantee fails when the
watchdog-timeout handler and the pairing-success handler interleave between
their read of `pendingConnectionCallback` and their nulling of it: under
the schedule A-reads, B-reads, A-consumes, B-consumes — sequentially
consistent for the unsynchronised field — the caller's completion callback
is invoked twice, not exactly once; a sequential order of the same two
handlers invokes it once. -/
theorem connect_callback_race_counterexample :
    (raceRun [false, true, false, true]).cbCount = 2
    ∧ ¬ ((raceRun [false, true, false, true]).cbCount = 1)
    ∧ (raceRun [false, false, true, true]).cbCount = 1 := by
  decide

/-! ## JSON values and JavaScript field access

`SamsungTizenHandler.identify` inspects the parsed JSON body with optional
chaining (`data?.device`, `device?.type`, ...) and default-on-falsy
(`device?.name || 'Samsung TV'`).  JSON values are modelled by `Json`;
`undefined` (an absent field, or chaining off a non-object) is `none` at
`Option Json`. -/

/-- Parsed JSON value (numbers as integers suffice for the probed
endpoints). -/
inductive Json where
  | jnull
  | jbool (b : Bool)
  | jnum (n : Int)
  | jstr (s : String)
  | jarr (elems : List Json)
  | jobj (fields : List (String × Json))

/-- Object field access: `undefined` on a non-object or a missing field. -/
def Json.getField : Json → String → Option Json
  | .jobj fields, k => (fields.find? (fun kv => kv.1 == k)).map (fun kv => kv.2)
  | _, _ => none

/-- Optional chaining `x?.k`. -/
def optField (o : Option Json) (k : String) : Option Json :=
  match o with
  | some j => j.getField k
  | none => none

/-- JavaScript truthiness of a possibly-undefined JSON value. -/
def jsTruthy : Option Json → Bool
  | none => false
  | some .jnull => false
  | some (.jbool b) => b
  | some (.jnum n) => !(n == 0)
  | some (.jstr s) => !s.isEmpty
  | some (.jarr _) => true
  | some (.jobj _) => true

/-- JavaScript `a || b` on possibly-undefined JSON values. -/
def jsOr (a b : Option Json) : Option Json :=
  if jsTruthy a then a else b

/-! ## TvDevice (src/handlers/types.ts) -/

/-- A discovered TV.  Fields that `identify` fills from JavaScript
expressions keep their JS value shape (`Option Json`, `none` being
`undefined`); `brand` is the brand id string of the `TvBrand` union. -/
structure TvDevice where
  id : Option Json
  ip : String
  name : Option Json
  brand : String
  model : Option Json
  os : Option Json
  resolution : Option Json
  mac : Option Json
  port : Option Nat
  metadata : List (String × Option Json)

/-! ## Samsung Tizen handler: identify
(src/handlers/samsung/SamsungTizenHandler.ts:48-91)

The REST probe `fetch("http://<ip>:8001/api/v2/")` either rejects (network
error, or the 2500 ms abort timer) or resolves with an ok-flag and a body;
`response.json()` can itself reject (`none` body).  Every failure path is
inside the `try`, whose `catch` returns `null`, so `identify` is total. -/

/-- Outcome of the REST probe. -/
inductive FetchOutcome where
  | failure
  | response (ok : Bool) (body : Option Json)

/-- Brand check on the parsed body (`isSamsung` in the source):
`device?.type === 'Samsung SmartTV'`, or a `samsung` substring in the
lower-cased `device?.name` or `data?.type` string. -/
def isSamsungBody (data : Json) : Bool :=
  (match optField (data.getField "device") "type" with
   | some (.jstr s) => s == "Samsung SmartTV"
   | _ => false)
  || (match optField (data.getField "device") "name" with
      | some (.jstr s) => strContains (toLowerStr s) "samsung"
      | _ => false)
  || (match data.getField "type" with
      | some (.jstr s) => strContains (toLowerStr s) "samsung"
      | _ => false)

/-- `SamsungTizenHandler.identify`: `none` unless the probe succeeded with
an ok status, a parseable body, and a recognisably-Samsung descriptor; on
success builds the `TvDevice` with port 8002 and the `'Tizen'` OS
default. -/
def SamsungTizenHandler.identify (ip : String) (fetch : FetchOutcome) : Option TvDevice :=
  match fetch with
  | .failure => none
  | .response ok body =>
    if !ok then none
    else
      match body with
      | none => none
      | some data =>
        let device := data.getField "device"
        if !isSamsungBody data then none
        else
          some {
            id := jsOr (optField device "id")
              (jsOr (optField device "duid") (some (.jstr ("samsung-" ++ ip)))),
            ip := ip,
            name := jsOr (optField device "name") (some (.jstr "Samsung TV")),
            brand := "samsung_tizen",
            model := jsOr (optField device "modelName") (optField device "model"),
            os := jsOr (optField device "OS") (some (.jstr "Tizen")),
            resolution := optField device "resolution",
            mac := optField device "wifiMac",
            port := some 8002,
            metadata := [
              ("firmwareVersion", optField device "firmwareVersion"),
              ("tokenAuthSupport", optField device "TokenAuthSupport"),
              ("networkType", optField device "networkType"),
              ("frameTVSupport", optField device "FrameTVSupport"),
              ("gamePadSupport", optField device "GamePadSupport"),
              ("apiVersion", data.getField "version")] }

/-- C7.  `identify`: (a) a 200 response whose body names a
`Samsung SmartTV` device without an `OS` field yields a device with port
8002 and the default `'Tizen'` OS label; (b) a rejected fetch (network
error or timeout), a non-success status, an unparseable body, and a body
that does not identify the brand all yield `none` — `identify` is a total
function, it never throws. -/
theorem samsung_identify_contract :
    (∃ dev, SamsungTizenHandler.identify "10.0.0.5"
        (.response true (some (Json.jobj [("device", Json.jobj
          [("type", Json.jstr "Samsung SmartTV"), ("name", Json.jstr "Living Room TV"),
           ("modelName", Json.jstr "X")])]))) = some dev
      ∧ dev.port = some 8002 ∧ dev.os = some (Json.jstr "Tizen"))
    ∧ (∀ ip, SamsungTizenHandler.identify ip .failure = none)
    ∧ (∀ ip b, SamsungTizenHandler.identify ip (.response false b) = none)
    ∧ (∀ ip, SamsungTizenHandler.identify ip (.response true none) = none)
    ∧ (∀ ip j, isSamsungBody j = false →
        SamsungTizenHandler.identify ip (.response true (some j)) = none) := by
  refine ⟨⟨_, rfl, rfl, rfl⟩, fun ip => rfl, fun ip b => rfl, fun ip => rfl, ?_⟩
  intro ip j h
  simp [SamsungTizenHandler.identify, h]

/-- Witness for `samsung_identify_contract`: a body whose device type names
another brand is rejected. -/
theorem samsung_identify_contract_witness :
    SamsungTizenHandler.identify "10.0.0.9"
      (.response true (some (Json.jobj
        [("device", Json.jobj [("type", Json.jstr "Roku TV")])]))) = none :=
  samsung_identify_contract.2.2.2.2 "10.0.0.9"
    (Json.jobj [("device", Json.jobj [("type", Json.jstr "Roku TV")])]) (by decide)

/-! ## Standard remote keys (src/handlers/types.ts:77-106) -/

/-- The closed `StandardRemoteKey` union, in declaration order. -/
inductive StandardRemoteKey where
  | power | source
  | up | down | left | right | enter | back
  | home | menu | info
  | volume_up | volume_down | mute
  | channel_up | channel_down
  | num_0 | num_1 | num_2 | num_3 | num_4
  | num_5 | num_6 | num_7 | num_8 | num_9
  | play | pause | stop | rewind | fast_forward
deriving DecidableEq

/-! ## Handler registry (src/handlers/registry.ts)

A registered handler is seen by the registry through its brand id, its
`connect` outcome, and its remote-control methods; `sendRawKey` and
`launchApp` are optional in the `TvHandler` interface, which the registry
probes with `typeof ... !== 'function'` — modelled as `Option`-valued
method slots.  A rejected promise / thrown error is `Except.error`. -/

/-- Registry-facing model of a `TvHandler`. -/
structure TvHandlerModel where
  brand : String
  connectResult : Except String Unit
  sendKeyFn : StandardRemoteKey → Except String Bool
  sendRawKeyFn : Option (String → Except String Bool)
  launchAppFn : Option (String → Except String Bool)

/-- Mutable state of the `HandlerRegistry` singleton. -/
structure RegistryState where
  handlers : List TvHandlerModel
  activeHandler : Option TvHandlerModel
  activeDevice : Option TvDevice
  activeUnsubscribe : Bool

/-- `getHandler(device)` (registry.ts:61-63). -/
def HandlerRegistry.getHandler (r : RegistryState) (d : TvDevice) : Option TvHandlerModel :=
  r.handlers.find? (fun h => h.brand == d.brand)

/-- The I/O-performing calls `connect` can make, in order. -/
inductive RegIoAction where
  | disconnectOld
  | subscribeEvents
  | handlerConnect
deriving DecidableEq

/-- `connect(device)` (registry.ts:188-237): returns the new registry
state, the promise outcome, and the trace of I/O-performing calls.  With no
handler for the device's brand it rejects immediately; otherwise it tears
down any active session, subscribes to the new handler's events, sets the
active pair and calls the handler's `connect`, clearing the active state
again if that rejects. -/
def HandlerRegistry.connect (r : RegistryState) (d : TvDevice) :
    RegistryState × Except String Unit × List RegIoAction :=
  match HandlerRegistry.getHandler r d with
  | none => (r, .error ("No handler available for brand: " ++ d.brand), [])
  | some handler =>
    let tearDown := r.activeHandler.isSome
    let r1 := if tearDown then
        { r with activeHandler := none, activeDevice := none, activeUnsubscribe := false }
      else r
    let r2 : RegistryState :=
      { r1 with
        activeHandler := some handler
        activeDevice := some d
        activeUnsubscribe := true }
    let acts := (if tearDown then [RegIoAction.disconnectOld] else [])
      ++ [RegIoAction.subscribeEvents, RegIoAction.handlerConnect]
    match handler.connectResult with
    | .ok _ => (r2, .ok (), acts)
    | .error e =>
      ({ r2 with activeHandler := none, activeDevice := none, activeUnsubscribe := false },
        .error e, acts)

/-- `sendKey(key)` (registry.ts:273-276). -/
def HandlerRegistry.sendKey (r : RegistryState) (key : StandardRemoteKey) :
    Except String Bool :=
  match r.activeHandler with
  | none => .ok false
  | some h => h.sendKeyFn key

/-- `sendRawKey(key)` (registry.ts:279-284). -/
def HandlerRegistry.sendRawKey (r : RegistryState) (key : String) : Except String Bool :=
  match r.activeHandler with
  | none => .ok false
  | some h =>
    match h.sendRawKeyFn with
    | none => .ok false
    | some f => f key

/-- `launchApp(appId)` (registry.ts:287-292). -/
def HandlerRegistry.launchApp (r : RegistryState) (appId : String) : Except String Bool :=
  match r.activeHandler with
  | none => .ok false
  | some h =>
    match h.launchAppFn with
    | none => .ok false
    | some f => f appId

/-- C5.  `connect(device)` for a brand with no registered handler rejects
with the `No handler available` error before performing any I/O or calling
any handler (empty action trace) and leaves the registry state — active
handler, active device and event subscription included — exactly as it
was. -/
theorem registry_connect_no_handler (r : RegistryState) (d : TvDevice)
    (h : HandlerRegistry.getHandler r d = none) :
    HandlerRegistry.connect r d
      = (r, .error ("No handler available for brand: " ++ d.brand), []) := by
  unfold HandlerRegistry.connect
  rw [h]

/-- Witness for `registry_connect_no_handler`: a registry with only the
Samsung handler rejects an `lg_webos` device untouched. -/
theorem registry_connect_no_handler_witness :
    HandlerRegistry.connect
      { handlers := [{ brand := "samsung_tizen", connectResult := .ok (), sendKeyFn := fun _ => .ok true, sendRawKeyFn := none, launchAppFn := none }], activeHandler := none, activeDevice := none, activeUnsubscribe := false }
      { id := none, ip := "10.0.0.2", name := none, brand := "lg_webos", model := none, os := none, resolution := none, mac := none, port := none, metadata := [] }
      = ({ handlers := [{ brand := "samsung_tizen", connectResult := .ok (), sendKeyFn := fun _ => .ok true, sendRawKeyFn := none, launchAppFn := none }], activeHandler := none, activeDevice := none, activeUnsubscribe := false },
        .error ("No handler available for brand: " ++ "lg_webos"), []) :=
  registry_connect_no_handler _ _ rfl

/-- C6.  `sendKey`, `sendRawKey` and `launchApp` resolve to `false` — they
never reject — whenever no handler is active, and `sendRawKey` /
`launchApp` also resolve to `false` when the active handler does not
provide the optional method. -/
theorem registry_send_ops_degrade (r : RegistryState) (key : StandardRemoteKey)
    (rawKey appId : String) :
    (r.activeHandler = none →
      HandlerRegistry.sendKey r key = .ok false
      ∧ HandlerRegistry.sendRawKey r rawKey = .ok false
      ∧ HandlerRegistry.launchApp r appId = .ok false)
    ∧ (∀ h, r.activeHandler = some h →
      (h.sendRawKeyFn = none → HandlerRegistry.sendRawKey r rawKey = .ok false)
      ∧ (h.launchAppFn = none → HandlerRegistry.launchApp r appId = .ok false)) := by
  constructor
  · intro h
    refine ⟨?_, ?_, ?_⟩ <;>
      simp [HandlerRegistry.sendKey, HandlerRegistry.sendRawKey, HandlerRegistry.launchApp, h]
  · intro hd h
    constructor
    · intro hraw
      simp [HandlerRegistry.sendRawKey, h, hraw]
    · intro happ
      simp [HandlerRegistry.launchApp, h, happ]

/-- Witness for `registry_send_ops_degrade`: with no active handler all
three calls resolve to `false`, and with an active handler lacking the
optional methods the optional calls resolve to `false`. -/
theorem registry_send_ops_degrade_witness :
    HandlerRegistry.sendKey
      { handlers := [], activeHandler := none, activeDevice := none,
        activeUnsubscribe := false } .volume_up = .ok false
    ∧ HandlerRegistry.sendRawKey
      { handlers := [], activeHandler := none, activeDevice := none,
        activeUnsubscribe := false } "KEY_NETFLIX" = .ok false
    ∧ HandlerRegistry.launchApp
      { handlers := [], activeHandler := none, activeDevice := none,
        activeUnsubscribe := false } "11101200001" = .ok false :=
  (registry_send_ops_degrade
    { handlers := [], activeHandler := none, activeDevice := none,
      activeUnsubscribe := false } .volume_up "KEY_NETFLIX" "11101200001").1 rfl

/-! ## Samsung key map (src/handlers/samsung/keys.ts:13-73) -/

/-- `SAMSUNG_KEY_MAP`: the `Record<StandardRemoteKey, string>` of native
key codes, total by its TypeScript type. -/
def SAMSUNG_KEY_MAP : StandardRemoteKey → String
  | .power => "KEY_POWER"
  | .source => "KEY_SOURCE"
  | .up => "KEY_UP"
  | .down => "KEY_DOWN"
  | .left => "KEY_LEFT"
  | .right => "KEY_RIGHT"
  | .enter => "KEY_ENTER"
  | .back => "KEY_RETURN"
  | .home => "KEY_HOME"
  | .menu => "KEY_MENU"
  | .info => "KEY_INFO"
  | .volume_up => "KEY_VOLUP"
  | .volume_down => "KEY_VOLDOWN"
  | .mute => "KEY_MUTE"
  | .channel_up => "KEY_CHUP"
  | .channel_down => "KEY_CHDOWN"
  | .num_0 => "KEY_0"
  | .num_1 => "KEY_1"
  | .num_2 => "KEY_2"
  | .num_3 => "KEY_3"
  | .num_4 => "KEY_4"
  | .num_5 => "KEY_5"
  | .num_6 => "KEY_6"
  | .num_7 => "KEY_7"
  | .num_8 => "KEY_8"
  | .num_9 => "KEY_9"
  | .play => "KEY_PLAY"
  | .pause => "KEY_PAUSE"
  | .stop => "KEY_STOP"
  | .rewind => "KEY_REWIND"
  | .fast_forward => "KEY_FF"

/-- `SAMSUNG_SUPPORTED_KEYS = Object.keys(SAMSUNG_KEY_MAP)`: the keys in
declaration order. -/
def SAMSUNG_SUPPORTED_KEYS : List StandardRemoteKey :=
  [.power, .source, .up, .down, .left, .right, .enter, .back,
   .home, .menu, .info, .volume_up, .volume_down, .mute,
   .channel_up, .channel_down,
   .num_0, .num_1, .num_2, .num_3, .num_4,
   .num_5, .num_6, .num_7, .num_8, .num_9,
   .play, .pause, .stop, .rewind, .fast_forward]

/-- `SamsungTizenHandler.getSupportedKeys()`
(SamsungTizenHandler.ts:148-150). -/
def SamsungTizenHandler.getSupportedKeys : List StandardRemoteKey :=
  SAMSUNG_SUPPORTED_KEYS

/-- `SamsungTizenHandler.sendKey` (SamsungTizenHandler.ts:135-146):
`false` off Android or without the native module, `false` for an unmapped
(falsy) key code, otherwise the native call's result with a thrown error
degraded to `false`.  The platform test and the native call are
parameters. -/
def SamsungTizenHandler.sendKey (androidAvailable : Bool)
    (native : String → Except String Bool) (key : StandardRemoteKey) : Bool :=
  if !androidAvailable then false
  else
    let samsungKey := SAMSUNG_KEY_MAP key
    if samsungKey.isEmpty then false
    else
      match native samsungKey with
      | .ok b => b
      | .error _ => false

/-- C10.  The Samsung key map is total over the standard key set: every
`StandardRemoteKey` maps to a non-empty native code and is listed in
`getSupportedKeys()`; consequently `sendKey`'s unmapped-key branch is
unreachable for standard keys — on an available platform the result is
always the native call's (error-degraded) result. -/
theorem samsung_key_map_total :
    ∀ k : StandardRemoteKey,
      (SAMSUNG_KEY_MAP k).isEmpty = false
      ∧ k ∈ SamsungTizenHandler.getSupportedKeys
      ∧ ∀ native : String → Except String Bool,
          SamsungTizenHandler.sendKey true native k
            = (match native (SAMSUNG_KEY_MAP k) with
               | .ok b => b
               | .error _ => false) := by
  intro k
  refine ⟨?_, ?_, ?_⟩
  · cases k <;> decide
  · cases k <;> decide
  · intro native
    cases k <;> rfl

/-! ## Subnet-scan probe generators

`scanSubnetForTvPorts` (SamsungTvClient.kt:217-262) and
`generateSubnetIps` (registry.ts:164-181) both split the caller's own IP
string on dots, drop out unless there are exactly four parts, parse the
last octet, and build `subnet.i` probe addresses for a low last-octet
range, skipping the caller's own last octet.  The device IP, which the
sources obtain from the OS, is a parameter.  `split(".")` is implemented
directly so the development stays executable. -/

/-- `String.split(".")` (Kotlin) / `ip.split('.')` (JS): the dot-separated
parts, empty parts preserved. -/
def splitOnDotAux : List Char → List Char → List String
  | acc, [] => [String.mk acc.reverse]
  | acc, c :: rest =>
    if c = '.' then String.mk acc.reverse :: splitOnDotAux [] rest
    else splitOnDotAux (c :: acc) rest

/-- Split an IP string on dots. -/
def splitIpOnDots (s : String) : List String :=
  splitOnDotAux [] s.data

/-- Decimal value of a digit run. -/
def digitsVal (cs : List Char) : Nat :=
  cs.foldl (fun a c => 10 * a + (c.toNat - 48)) 0

/-- JS `parseInt(s, 10)`: the longest leading digit run, `none` (NaN) when
there is none.  (The sign/whitespace prefixes `parseInt` would also accept
cannot occur in a dotted-quad part and are not modelled.) -/
def parseIntJs (s : String) : Option Nat :=
  let ds := s.data.takeWhile Char.isDigit
  if ds.isEmpty then none else some (digitsVal ds)

/-- Kotlin `String.toIntOrNull()`: strict whole-string decimal parse with
an optional sign and the `Int` range check. -/
def kotlinToIntOrNull (s : String) : Option Int :=
  match s.data with
  | [] => none
  | cs =>
    let sd : Bool × List Char :=
      match cs with
      | '-' :: rest => (true, rest)
      | '+' :: rest => (false, rest)
      | rest => (false, rest)
    if sd.2.isEmpty || !sd.2.all Char.isDigit then none
    else
      let v := digitsVal sd.2
      if sd.1 then (if v ≤ 2147483648 then some (-(v : Int)) else none)
      else if v ≤ 2147483647 then some ((v : Int)) else none

/-- `"${parts[0]}.${parts[1]}.${parts[2]}"`. -/
def subnetOf (parts : List String) : String :=
  parts.getD 0 "" ++ "." ++ parts.getD 1 "" ++ "." ++ parts.getD 2 ""

/-- The probe addresses `scanSubnetForTvPorts` submits to its executor
(SamsungTvClient.kt:235-255): last octets 1..60, the caller's own skipped
(`if (i == myLastOctet) { latch.countDown(); continue }`). -/
def scanSubnetForTvPortsProbes (deviceIp : String) : List String :=
  let parts := splitIpOnDots deviceIp
  if parts.length ≠ 4 then []
  else
    match kotlinToIntOrNull (parts.getD 3 "") with
    | none => []
    | some myLastOctet =>
      (List.range' 1 60).filterMap (fun (i : Nat) =>
        if (i : Int) = myLastOctet then none
        else some (subnetOf parts ++ "." ++ Nat.repr i))

/-- `generateSubnetIps` (registry.ts:164-181): last octets 1..50, pushed
only when `i !== myLastOctet` (with NaN never equal to any `i`). -/
def generateSubnetIps (deviceIp : String) : List String :=
  let parts := splitIpOnDots deviceIp
  if parts.length ≠ 4 then []
  else
    let myLastOctet := parseIntJs (parts.getD 3 "")
    (List.range' 1 50).filterMap (fun i =>
      if some i ≠ myLastOctet then some (subnetOf parts ++ "." ++ Nat.repr i)
      else none)

set_option maxRecDepth 8000 in
/-- `parseIntJs` reads back the decimal rendering of an octet. -/
theorem parseIntJs_repr : ∀ m < 256, parseIntJs (Nat.repr m) = some m := by decide

/-- Decimal renderings of distinct octet values are distinct. -/
theorem repr_inj_lt256 (i m : Nat) (hi : i < 256) (hm : m < 256)
    (h : Nat.repr i = Nat.repr m) : i = m := by
  have h1 := parseIntJs_repr i hi
  rw [h, parseIntJs_repr m hm] at h1
  exact (Option.some_inj.mp h1).symm

/-- Left-cancellation for string append. -/
theorem string_append_cancel_left (s t u : String) (h : s ++ t = s ++ u) : t = u := by
  have hd := congrArg String.data h
  simp only [String.data_append] at hd
  exact String.ext (List.append_cancel_left hd)

/-- C9.  Neither subnet-scan probe set contains the caller's own
last-octet address: every probe targets a last octet different from the
caller's own, and the caller's own address (subnet prefix plus its own
last octet) is not in the set.  The first conjunct covers the native port
scan (octets 1-60), the second the registry's generated list (octets
1-50). -/
theorem subnet_scan_excludes_own_address (deviceIp : String) :
    (∀ n : Nat, n ≤ 255 →
      kotlinToIntOrNull ((splitIpOnDots deviceIp).getD 3 "") = some ((n : Nat) : Int) →
      (subnetOf (splitIpOnDots deviceIp) ++ "." ++ Nat.repr n)
          ∉ scanSubnetForTvPortsProbes deviceIp
      ∧ ∀ s ∈ scanSubnetForTvPortsProbes deviceIp, ∃ i : Nat,
          1 ≤ i ∧ i ≤ 60 ∧ i ≠ n
          ∧ s = subnetOf (splitIpOnDots deviceIp) ++ "." ++ Nat.repr i)
    ∧ (∀ n : Nat, n ≤ 255 →
      parseIntJs ((splitIpOnDots deviceIp).getD 3 "") = some n →
      (subnetOf (splitIpOnDots deviceIp) ++ "." ++ Nat.repr n)
          ∉ generateSubnetIps deviceIp
      ∧ ∀ s ∈ generateSubnetIps deviceIp, ∃ i : Nat,
          1 ≤ i ∧ i ≤ 50 ∧ i ≠ n
          ∧ s = subnetOf (splitIpOnDots deviceIp) ++ "." ++ Nat.repr i) := by
  constructor
  · intro n hn hk
    have hmem : ∀ s ∈ scanSubnetForTvPortsProbes deviceIp, ∃ i : Nat,
        1 ≤ i ∧ i ≤ 60 ∧ i ≠ n
        ∧ s = subnetOf (splitIpOnDots deviceIp) ++ "." ++ Nat.repr i := by
      intro s hs
      unfold scanSubnetForTvPortsProbes at hs
      by_cases h4 : (splitIpOnDots deviceIp).length ≠ 4
      · rw [if_pos h4] at hs
        exact absurd hs (List.not_mem_nil s)
      · rw [if_neg h4, hk] at hs
        rcases List.mem_filterMap.mp hs with ⟨i, hi, hfi⟩
        by_cases hin : (i : Int) = ((n : Nat) : Int)
        · rw [if_pos hin] at hfi
          exact absurd hfi (by simp)
        · rw [if_neg hin] at hfi
          refine ⟨i, ?_, ?_, ?_, (Option.some_inj.mp hfi).symm⟩
          · exact (List.mem_range'_1.mp hi).1
          · have := (List.mem_range'_1.mp hi).2
            omega
          · intro hcontra
            exact hin (by rw [hcontra])
    refine ⟨?_, hmem⟩
    intro hown
    rcases hmem _ hown with ⟨i, _, hi60, hine, heq⟩
    have hrepr : Nat.repr n = Nat.repr i :=
      string_append_cancel_left _ _ _ heq
    exact hine (repr_inj_lt256 i n (by omega) (by omega) hrepr.symm)
  · intro n hn hk
    have hmem : ∀ s ∈ generateSubnetIps deviceIp, ∃ i : Nat,
        1 ≤ i ∧ i ≤ 50 ∧ i ≠ n
        ∧ s = subnetOf (splitIpOnDots deviceIp) ++ "." ++ Nat.repr i := by
      intro s hs
      unfold generateSubnetIps at hs
      by_cases h4 : (splitIpOnDots deviceIp).length ≠ 4
      · rw [if_pos h4] at hs
        exact absurd hs (List.not_mem_nil s)
      · rw [if_neg h4, hk] at hs
        rcases List.mem_filterMap.mp hs with ⟨i, hi, hfi⟩
        by_cases hin : some i ≠ some n
        · rw [if_pos hin] at hfi
          refine ⟨i, ?_, ?_, ?_, (Option.some_inj.mp hfi).symm⟩
          · exact (List.mem_range'_1.mp hi).1
          · have := (List.mem_range'_1.mp hi).2
            omega
          · intro hcontra
            exact hin (by rw [hcontra])
        · rw [if_neg hin] at hfi
          exact absurd hfi (by simp)
    refine ⟨?_, hmem⟩
    intro hown
    rcases hmem _ hown with ⟨i, _, hi50, hine, heq⟩
    have hrepr : Nat.repr n = Nat.repr i :=
      string_append_cancel_left _ _ _ heq
    exact hine (repr_inj_lt256 i n (by omega) (by omega) hrepr.symm)

/-- Witness for `subnet_scan_excludes_own_address` at the device IP
`192.168.1.7`: neither probe set contains `192.168.1.7`. -/
theorem subnet_scan_excludes_own_address_witness :
    (subnetOf (splitIpOnDots "192.168.1.7") ++ "." ++ Nat.repr 7)
        ∉ scanSubnetForTvPortsProbes "192.168.1.7"
    ∧ (subnetOf (splitIpOnDots "192.168.1.7") ++ "." ++ Nat.repr 7)
        ∉ generateSubnetIps "192.168.1.7" :=
  ⟨((subnet_scan_excludes_own_address "192.168.1.7").1 7 (by norm_num) (by decide)).1,
   ((subnet_scan_excludes_own_address "192.168.1.7").2 7 (by norm_num) (by decide)).1⟩
